import Mathlib

/-!
Shallow embedding of `src/gevent/resolver/ares.py` (the c-ares based
resolver facade of gevent).

Modelling conventions:

* Python byte strings and text strings are both modelled as Lean `String`;
  the IDNA encoding performed by `str.encode` is an uninterpreted function
  carried in the environment (`Env.idna`), and ASCII encoding of an ASCII
  string is the identity.
* The external c-ares channel object is modelled as a record of pure
  functions (`Chan`): each engine query maps its arguments to either a
  result or a raised error, exactly the value the `Waiter` would deliver.
* The native `_socket` resolver functions are likewise oracle functions in
  the environment (`Env`).
* The `while True: ares = self.cares ... except K: if ares is self.cares:
  raise` retry loops are modelled by a list of attempts; each attempt
  carries the channel used for that dispatch and a boolean saying whether
  the stored channel handle identity changed while the flow was suspended
  (the fork-driven swap).  An exhausted attempt list means the loop is
  still retrying, returned as `none`.
* Every function also returns the ordered trace of resolver calls it made
  (engine calls and native-resolver calls), so that claims about "no
  engine call" or "exactly one second reverse query" are statable.
* Platform constants use their Linux values (`MAC = False`); the
  `PY3` flag is kept as an explicit parameter where the source consults it.
-/

deriving instance DecidableEq for Except

namespace GeventAres

/-- Python exception values raised by the resolver facade. `gaierror`
carries its two constructor arguments and the `errno` attribute. -/
inductive PyErr : Type where
  | gaierror (code : Int) (msg : String) (errnoAttr : Int)
  | herror (code : Int) (msg : String)
  | oserror (msg : String)
  | typeError (msg : String)
  | overflowError (msg : String)
  | invalidIP
  | indexError
deriving DecidableEq, Repr

/-- Socket address as produced by the engine: `(host, port)` for INET and
`(host, port, flowinfo, scopeid)` for INET6; `extra` holds the fields past
the first two. -/
structure AddrSock : Type where
  host : String
  port : Int
  extra : List Int
deriving DecidableEq, Repr

/-- One `(family, socktype, proto, canonname, sockaddr)` record of a
getaddrinfo result. -/
structure AddrInfo : Type where
  family : Nat
  socktype : Nat
  proto : Nat
  canonname : String
  sockaddr : AddrSock
deriving DecidableEq, Repr

/-- A `(hostname, aliaslist, ipaddrlist)` triple as returned by
`gethostbyname_ex` / `gethostbyaddr`. -/
structure HostEntry : Type where
  name : String
  aliases : List String
  addrs : List String
deriving DecidableEq, Repr

/-- The dynamic type of the `host` argument: text, bytes, bytearray,
`None`, or some other (invalid) type carrying its type name. -/
inductive HostArg : Type where
  | txt (s : String)
  | bytes (s : String)
  | byteArray (s : String)
  | none_
  | other (tyName : String)
deriving DecidableEq, Repr

/-- The dynamic type of the `port` argument passed to getaddrinfo. -/
inductive PortArg : Type where
  | int (n : Int)
  | txt (s : String)
  | bytes (s : String)
  | none_
deriving DecidableEq, Repr

/-- The sockaddr tuple given to `getnameinfo`: `(host, port)` plus any
trailing `flowinfo` / `scopeid` elements in `extra`.  The `isinstance`
checks of `getnameinfo` on flags / the tuple / the integer port are
satisfied by this typed embedding; the flowinfo range check is modelled. -/
structure GniSockaddr : Type where
  host : HostArg
  port : Int
  extra : List Int
deriving DecidableEq, Repr

/-- Trace entry: one call to the engine or to the native resolver,
with the arguments it received. -/
inductive EngineCall : Type where
  | engGetaddrinfo (host : String) (port : PortArg)
      (family socktype proto flags : Nat)
  | engGethostbyname (host : String) (family : Nat)
  | engGethostbyaddr (addr : String)
  | engGetnameinfo (addr : AddrSock) (flags : Nat)
  | nativeGetaddrinfo (host : HostArg) (port : PortArg)
      (family socktype proto flags : Nat)
  | nativeGethostbynameEx (host : String)
deriving DecidableEq, Repr

/-- Ordered list of resolver calls made by an operation. -/
abbrev Trace : Type := List EngineCall

/-- The engine channel handle: each c-ares query as the pure function from
its arguments to the value or error the completion delivers via the
Waiter. -/
structure Chan : Type where
  getaddrinfo : String → PortArg → Nat → Nat → Nat → Nat →
      Except PyErr (List AddrInfo)
  gethostbyname : String → Nat → Except PyErr HostEntry
  gethostbyaddr : String → Except PyErr HostEntry
  getnameinfo : AddrSock → Nat → Except PyErr (Option String × Option String)

/-- Process-static collaborators: the IDNA encoder, the native `_socket`
resolver functions, and `_resolve_special` from the resolver package. -/
structure Env : Type where
  idna : String → String
  natGetaddrinfo : HostArg → PortArg → Nat → Nat → Nat → Nat →
      Except PyErr (List AddrInfo)
  natGethostbynameEx : String → Except PyErr HostEntry
  resolveSpecial : HostArg → Nat → HostArg

/- Socket-level constants, Linux values. -/

def AF_UNSPEC : Nat := 0
def AF_INET : Nat := 2
def AF_INET6 : Nat := 10
def SOCK_STREAM : Nat := 1
def SOCK_DGRAM : Nat := 2
def SOL_TCP : Nat := 6
def SOL_UDP : Nat := 17
def AI_NUMERICHOST : Nat := 4
def EAI_NONAME : Int := -2

/-- `MAC` from gevent._compat; this model uses the Linux value. -/
def MAC : Bool := false

/-- The two well-known local hostnames bypassed by `_getaddrinfo`. -/
def LOCAL_HOSTNAMES : List String := ["localhost", "ip6-localhost"]

/-- The bypass set used by `gethostbyname_ex`: local plus broadcast
names. -/
def LOCAL_AND_BROADCAST_HOSTNAMES : List String :=
  LOCAL_HOSTNAMES ++ ["255.255.255.255", "<broadcast>"]

/-- Platform message for `EAI_NONAME`. -/
def EAI_NONAME_MSG : String :=
  if MAC then "nodename nor servname provided, or not known"
  else "Name or service not known"

/-- `Resolver._hostname_to_bytes`: text gets encoded, bytes-like passes
through, anything else is a TypeError. -/
def hostname_to_bytes (env : Env) : HostArg → Except PyErr String
  | HostArg.txt s => Except.ok (env.idna s)
  | HostArg.bytes s => Except.ok s
  | HostArg.byteArray s => Except.ok s
  | HostArg.none_ =>
      Except.error (PyErr.typeError "Expected str, bytes or bytearray, not NoneType")
  | HostArg.other tyName =>
      Except.error (PyErr.typeError ("Expected str, bytes or bytearray, not " ++ tyName))

/-- The text-to-bytes step at the top of `_getaddrinfo`:
`host.encode(idna)` when host is text, otherwise unchanged. -/
def host_encode (env : Env) : HostArg → HostArg
  | HostArg.txt s => HostArg.bytes (env.idna s)
  | h => h

/-- Port coercion in `_getaddrinfo`: text becomes ASCII bytes, integer 0
becomes None, other integers are stringified; anything else passes
through. -/
def port_normalize : PortArg → PortArg
  | PortArg.txt s => PortArg.bytes s
  | PortArg.int n => if n = 0 then PortArg.none_ else PortArg.bytes (toString n)
  | p => p

/-- The `hard_type_proto` pair list of `_getaddrinfo`: the one pair forced
by a requested socktype, the one pair forced by a requested proto, or the
two canonical stream/datagram pairs when neither was requested. -/
def hard_type_proto (socktype proto : Nat) : List (Nat × Nat) :=
  if socktype ≠ 0 then
    [(socktype, if socktype = SOCK_STREAM then SOL_TCP else SOL_UDP)]
  else if proto ≠ 0 then
    [(if proto = SOL_TCP then SOCK_STREAM else SOCK_DGRAM, proto)]
  else
    [(SOCK_STREAM, SOL_TCP), (SOCK_DGRAM, SOL_UDP)]

/-- The backfill list comprehension of `_getaddrinfo`: every record is
combined with every `hard_type_proto` pair; a pair member is used only
where the record left the field unset (zero). -/
def fill_type_proto (socktype proto : Nat) (result : List AddrInfo) :
    List AddrInfo :=
  result.flatMap fun r =>
    (hard_type_proto socktype proto).map fun tp =>
      AddrInfo.mk r.family
        (if r.socktype = 0 then tp.1 else r.socktype)
        (if r.proto = 0 then tp.2 else r.proto)
        r.canonname r.sockaddr

/-- `Resolver._getaddrinfo`: bypass to the native resolver for non-bytes
hosts, the AI_NUMERICHOST flag, or a local hostname; otherwise one engine
getaddrinfo call, empty results turned into `gaierror(EAI_NONAME)`, and
the optional type/proto backfill. -/
def ares_getaddrinfo (env : Env) (ch : Chan) (host : HostArg) (port : PortArg)
    (family socktype proto flags : Nat) (fill_in_type_proto : Bool) :
    Except PyErr (List AddrInfo) × Trace :=
  match host_encode env host with
  | HostArg.bytes h =>
    if flags.land AI_NUMERICHOST != 0 || LOCAL_HOSTNAMES.contains h then
      (env.natGetaddrinfo (HostArg.bytes h) port family socktype proto flags,
       [EngineCall.nativeGetaddrinfo (HostArg.bytes h) port family socktype proto flags])
    else
      match ch.getaddrinfo h (port_normalize port) family socktype proto flags with
      | Except.error e =>
          (Except.error e,
           [EngineCall.engGetaddrinfo h (port_normalize port) family socktype proto flags])
      | Except.ok [] =>
          (Except.error (PyErr.gaierror EAI_NONAME EAI_NONAME_MSG EAI_NONAME),
           [EngineCall.engGetaddrinfo h (port_normalize port) family socktype proto flags])
      | Except.ok (r :: rs) =>
          (Except.ok (if fill_in_type_proto
              then fill_type_proto socktype proto (r :: rs) else r :: rs),
           [EngineCall.engGetaddrinfo h (port_normalize port) family socktype proto flags])
  | h1 =>
      (env.natGetaddrinfo h1 port family socktype proto flags,
       [EngineCall.nativeGetaddrinfo h1 port family socktype proto flags])

/-- `Resolver.getaddrinfo`: the retry loop around `_getaddrinfo`, catching
`gaierror`; an unchanged channel handle re-raises, a changed handle
re-dispatches against the next channel. -/
def getaddrinfo_run (env : Env) (host : HostArg) (port : PortArg)
    (family socktype proto flags : Nat) :
    List (Chan × Bool) → Option (Except PyErr (List AddrInfo) × Trace)
  | [] => none
  | (ch, changed) :: rest =>
    match ares_getaddrinfo env ch host port family socktype proto flags true with
    | (Except.ok v, tr) => some (Except.ok v, tr)
    | (Except.error (PyErr.gaierror c m n), tr) =>
      if changed then
        (getaddrinfo_run env host port family socktype proto flags rest).map
          fun pr => (pr.1, tr ++ pr.2)
      else
        some (Except.error (PyErr.gaierror c m n), tr)
    | (Except.error e, tr) => some (Except.error e, tr)

/-- One iteration body of the `gethostbyname_ex` try block: the engine
gethostbyname call, with an empty address list turned into
`herror(EAI_NONAME)`. -/
def gethostbyname_ex_attempt (ch : Chan) (hostname : String) (family : Nat) :
    Except PyErr HostEntry × Trace :=
  match ch.gethostbyname hostname family with
  | Except.error e => (Except.error e, [EngineCall.engGethostbyname hostname family])
  | Except.ok result =>
    if result.addrs.isEmpty then
      (Except.error (PyErr.herror EAI_NONAME EAI_NONAME_MSG),
       [EngineCall.engGethostbyname hostname family])
    else (Except.ok result, [EngineCall.engGethostbyname hostname family])

/-- The `except herror` handler of `gethostbyname_ex` on an unchanged
handle: error code 1 (host not found) becomes `gaierror(EAI_NONAME)`,
anything else is re-raised unchanged. -/
def host_error_translate (code : Int) (msg : String) : PyErr :=
  if code = 1 then PyErr.gaierror EAI_NONAME EAI_NONAME_MSG EAI_NONAME
  else PyErr.herror code msg

/-- The `while True` loop of `gethostbyname_ex`, catching `herror`. -/
def gethostbyname_ex_run (hostname : String) (family : Nat) :
    List (Chan × Bool) → Option (Except PyErr HostEntry × Trace)
  | [] => none
  | (ch, changed) :: rest =>
    match gethostbyname_ex_attempt ch hostname family with
    | (Except.ok v, tr) => some (Except.ok v, tr)
    | (Except.error (PyErr.herror c m), tr) =>
      if changed then
        (gethostbyname_ex_run hostname family rest).map
          fun pr => (pr.1, tr ++ pr.2)
      else
        some (Except.error (host_error_translate c m), tr)
    | (Except.error e, tr) => some (Except.error e, tr)

/-- `Resolver.gethostbyname_ex`: hostname coercion, the
local-and-broadcast bypass to the native resolver, then the retry loop. -/
def gethostbyname_ex (env : Env) (host : HostArg) (family : Nat)
    (attempts : List (Chan × Bool)) : Option (Except PyErr HostEntry × Trace) :=
  match hostname_to_bytes env host with
  | Except.error e => some (Except.error e, [])
  | Except.ok h =>
    if LOCAL_AND_BROADCAST_HOSTNAMES.contains h then
      some (env.natGethostbynameEx h, [EngineCall.nativeGethostbynameEx h])
    else gethostbyname_ex_run h family attempts

/-- `Resolver.gethostbyname` with an explicit family argument:
`_resolve_special`, then `gethostbyname_ex(...)[-1][0]`. -/
def gethostbyname_with_family (env : Env) (host : HostArg) (family : Nat)
    (attempts : List (Chan × Bool)) : Option (Except PyErr String × Trace) :=
  match gethostbyname_ex env (env.resolveSpecial host family) family attempts with
  | none => none
  | some (Except.error e, tr) => some (Except.error e, tr)
  | some (Except.ok entry, tr) =>
    match entry.addrs with
    | [] => some (Except.error PyErr.indexError, tr)
    | a :: _ => some (Except.ok a, tr)

/-- `Resolver.gethostbyname` as called with one argument: the Python
default for the family parameter is `AF_INET`. -/
def gethostbyname (env : Env) (host : HostArg)
    (attempts : List (Chan × Bool)) : Option (Except PyErr String × Trace) :=
  gethostbyname_with_family env host AF_INET attempts

/-- `Resolver._gethostbyaddr`: the reverse query, with the
`except InvalidIP` fallback performing one forward getaddrinfo lookup and
at most one second reverse query on the newly resolved address. -/
def ares_gethostbyaddr (env : Env) (ch : Chan) (ip : HostArg) :
    Except PyErr HostEntry × Trace :=
  match hostname_to_bytes env ip with
  | Except.error e => (Except.error e, [])
  | Except.ok ip_address =>
    match ch.gethostbyaddr ip_address with
    | Except.ok v => (Except.ok v, [EngineCall.engGethostbyaddr ip_address])
    | Except.error PyErr.invalidIP =>
      match ares_getaddrinfo env ch (HostArg.bytes ip_address) PortArg.none_
          AF_UNSPEC SOCK_DGRAM 0 0 true with
      | (Except.error e2, tr) =>
          (Except.error e2, EngineCall.engGethostbyaddr ip_address :: tr)
      | (Except.ok [], tr) =>
          (Except.error PyErr.invalidIP, EngineCall.engGethostbyaddr ip_address :: tr)
      | (Except.ok (r0 :: _), tr) =>
        if r0.sockaddr.host = ip_address then
          (Except.error PyErr.invalidIP, EngineCall.engGethostbyaddr ip_address :: tr)
        else
          (ch.gethostbyaddr r0.sockaddr.host,
           EngineCall.engGethostbyaddr ip_address ::
             (tr ++ [EngineCall.engGethostbyaddr r0.sockaddr.host]))
    | Except.error e => (Except.error e, [EngineCall.engGethostbyaddr ip_address])

/-- The `while True` loop of `gethostbyaddr`, catching `herror`. -/
def gethostbyaddr_run (env : Env) (ip : HostArg) :
    List (Chan × Bool) → Option (Except PyErr HostEntry × Trace)
  | [] => none
  | (ch, changed) :: rest =>
    match ares_gethostbyaddr env ch ip with
    | (Except.ok v, tr) => some (Except.ok v, tr)
    | (Except.error (PyErr.herror c m), tr) =>
      if changed then
        (gethostbyaddr_run env ip rest).map fun pr => (pr.1, tr ++ pr.2)
      else
        some (Except.error (PyErr.herror c m), tr)
    | (Except.error e, tr) => some (Except.error e, tr)

/-- `Resolver.gethostbyaddr`: `_resolve_special` with `AF_UNSPEC`, then
the retry loop. -/
def gethostbyaddr (env : Env) (ip : HostArg)
    (attempts : List (Chan × Bool)) : Option (Except PyErr HostEntry × Trace) :=
  gethostbyaddr_run env (env.resolveSpecial ip AF_UNSPEC) attempts

/-- `Resolver._getnameinfo`: the auxiliary getaddrinfo (no type/proto
backfill), the single-candidate check, the family-specific address
shaping, the engine getnameinfo call, and the missing-service handling
depending on the Python-3 convention. -/
def ares_getnameinfo_inner (env : Env) (ch : Chan) (py3 : Bool)
    (hostname : String) (port : Int) (sockaddr : GniSockaddr) (flags : Nat) :
    Except PyErr (Option String × String) × Trace :=
  match ares_getaddrinfo env ch (HostArg.bytes hostname) (PortArg.int port)
      AF_UNSPEC SOCK_DGRAM 0 0 false with
  | (Except.error e, tr) => (Except.error e, tr)
  | (Except.ok [r0], tr) =>
    if r0.family = AF_INET ∧ sockaddr.extra ≠ [] then
      (Except.error (PyErr.oserror "IPv4 sockaddr must be 2 tuple"), tr)
    else
      let address := if r0.family = AF_INET6
        then AddrSock.mk r0.sockaddr.host r0.sockaddr.port sockaddr.extra
        else r0.sockaddr
      match ch.getnameinfo address flags with
      | Except.error e =>
          (Except.error e, tr ++ [EngineCall.engGetnameinfo address flags])
      | Except.ok (node, none) =>
        if py3 then
          (Except.error (PyErr.gaierror EAI_NONAME EAI_NONAME_MSG EAI_NONAME),
           tr ++ [EngineCall.engGetnameinfo address flags])
        else
          (Except.ok (node, "0"), tr ++ [EngineCall.engGetnameinfo address flags])
      | Except.ok (node, some s) =>
          (Except.ok (node, if s = "" then "0" else s),
           tr ++ [EngineCall.engGetnameinfo address flags])
  | (Except.ok _, tr) =>
      (Except.error (PyErr.oserror "sockaddr resolved to multiple addresses"), tr)

/-- The `while True` loop of `getnameinfo`, catching `gaierror`. -/
def getnameinfo_run (env : Env) (py3 : Bool) (address : String) (port : Int)
    (sockaddr : GniSockaddr) (flags : Nat) :
    List (Chan × Bool) → Option (Except PyErr (Option String × String) × Trace)
  | [] => none
  | (ch, changed) :: rest =>
    match ares_getnameinfo_inner env ch py3 address port sockaddr flags with
    | (Except.ok v, tr) => some (Except.ok v, tr)
    | (Except.error (PyErr.gaierror c m n), tr) =>
      if changed then
        (getnameinfo_run env py3 address port sockaddr flags rest).map
          fun pr => (pr.1, tr ++ pr.2)
      else
        some (Except.error (PyErr.gaierror c m n), tr)
    | (Except.error e, tr) => some (Except.error e, tr)

/-- `Resolver.getnameinfo`: host coercion, the out-of-range port clamp to
0, the flowinfo overflow check, then the retry loop. -/
def getnameinfo (env : Env) (py3 : Bool) (sockaddr : GniSockaddr) (flags : Nat)
    (attempts : List (Chan × Bool)) :
    Option (Except PyErr (Option String × String) × Trace) :=
  match hostname_to_bytes env sockaddr.host with
  | Except.error e => some (Except.error e, [])
  | Except.ok address =>
    let port := if sockaddr.port ≥ 65536 then 0 else sockaddr.port
    match sockaddr.extra with
    | [] => getnameinfo_run env py3 address port sockaddr flags attempts
    | flowinfo :: _ =>
      if flowinfo > 0xfffff then
        some (Except.error
          (PyErr.overflowError "getnameinfo(): flowinfo must be 0-1048575."), [])
      else getnameinfo_run env py3 address port sockaddr flags attempts

/-- Number of reverse (gethostbyaddr) engine calls in a trace. -/
def countRev : Trace → Nat
  | [] => 0
  | EngineCall.engGethostbyaddr _ :: rest => countRev rest + 1
  | _ :: rest => countRev rest

/-- Number of forward address-info calls (engine or native) in a trace. -/
def countFwd : Trace → Nat
  | [] => 0
  | EngineCall.engGetaddrinfo _ _ _ _ _ _ :: rest => countFwd rest + 1
  | EngineCall.nativeGetaddrinfo _ _ _ _ _ _ :: rest => countFwd rest + 1
  | _ :: rest => countFwd rest

/-! Concrete environments and channels used by counterexamples and
witnesses. -/

/-- An environment whose native resolver answers every address-info query
with the empty list, with identity IDNA encoding and pass-through
`_resolve_special`. -/
def envW : Env :=
  Env.mk (fun s => s)
    (fun _ _ _ _ _ _ => Except.ok [])
    (fun _ => Except.ok (HostEntry.mk "native" [] ["127.0.0.1"]))
    (fun h _ => h)

/-- A single engine record for the broadcast address, used to show that
`_getaddrinfo` consults the engine for `255.255.255.255`. -/
def recBroadcast : AddrInfo :=
  AddrInfo.mk 2 0 0 "" (AddrSock.mk "255.255.255.255" 0 [])

/-- A channel that answers every address-info query with the single
broadcast record and rejects the other queries. -/
def chBroadcast : Chan :=
  Chan.mk (fun _ _ _ _ _ _ => Except.ok [recBroadcast])
    (fun _ _ => Except.error (PyErr.herror 1 "unknown host"))
    (fun _ => Except.error (PyErr.herror 1 "unknown host"))
    (fun _ _ => Except.error (PyErr.gaierror EAI_NONAME EAI_NONAME_MSG EAI_NONAME))

/-- A channel on which every query fails with the conventional error for
its operation family: `gaierror` for address-info queries, `herror(1)` for
host queries. -/
def chFail : Chan :=
  Chan.mk (fun _ _ _ _ _ _ => Except.error (PyErr.gaierror 11 "Temporary failure" 11))
    (fun _ _ => Except.error (PyErr.herror 1 "Unknown host"))
    (fun _ => Except.error (PyErr.herror 1 "Unknown host"))
    (fun _ _ => Except.error (PyErr.gaierror EAI_NONAME EAI_NONAME_MSG EAI_NONAME))

/-- A channel whose gethostbyname fails with a host error whose code is
not 1. -/
def chHerr2 : Chan :=
  Chan.mk (fun _ _ _ _ _ _ => Except.error (PyErr.gaierror 11 "Temporary failure" 11))
    (fun _ _ => Except.error (PyErr.herror 2 "Host name lookup failure"))
    (fun _ => Except.error (PyErr.herror 2 "Host name lookup failure"))
    (fun _ _ => Except.error (PyErr.gaierror EAI_NONAME EAI_NONAME_MSG EAI_NONAME))

/-- A sockaddr argument for name-info witnesses. -/
def saW : GniSockaddr := GniSockaddr.mk (HostArg.bytes "93.184.216.34") 0 []

/-- An engine record with socktype and proto unset. -/
def recU : AddrInfo := AddrInfo.mk 2 0 0 "" (AddrSock.mk "1.2.3.4" 80 [])

/-- A second engine record with socktype and proto unset. -/
def recU2 : AddrInfo := AddrInfo.mk 2 0 0 "" (AddrSock.mk "5.6.7.8" 80 [])

/-- A channel whose address-info queries return the empty list. -/
def chEmptyAddr : Chan :=
  Chan.mk (fun _ _ _ _ _ _ => Except.ok [])
    (fun _ _ => Except.error (PyErr.herror 1 "Unknown host"))
    (fun _ => Except.error (PyErr.herror 1 "Unknown host"))
    (fun _ _ => Except.error (PyErr.gaierror EAI_NONAME EAI_NONAME_MSG EAI_NONAME))

/-- A channel whose address-info queries return exactly one record and
whose name-info completion delivers a node but no service. -/
def chOne : Chan :=
  Chan.mk (fun _ _ _ _ _ _ => Except.ok [recU])
    (fun _ _ => Except.error (PyErr.herror 1 "Unknown host"))
    (fun _ => Except.error (PyErr.herror 1 "Unknown host"))
    (fun _ _ => Except.ok (some "host.example", none))

/-- A channel whose address-info queries return two records. -/
def chTwo : Chan :=
  Chan.mk (fun _ _ _ _ _ _ => Except.ok [recU, recU2])
    (fun _ _ => Except.error (PyErr.herror 1 "Unknown host"))
    (fun _ => Except.error (PyErr.herror 1 "Unknown host"))
    (fun _ _ => Except.ok (some "host.example", some "http"))

/-- A channel whose gethostbyname answers depend on the requested family,
distinguishing the AF_INET default from AF_UNSPEC. -/
def chFam : Chan :=
  Chan.mk (fun _ _ _ _ _ _ => Except.ok [recU])
    (fun _ fam => if fam = AF_INET
        then Except.ok (HostEntry.mk "x.example" [] ["1.1.1.1"])
        else Except.ok (HostEntry.mk "x.example" [] ["2.2.2.2"]))
    (fun _ => Except.error (PyErr.herror 1 "Unknown host"))
    (fun _ _ => Except.ok (some "n", some "s"))

/-- A channel that rejects every reverse lookup as an invalid IP while
its forward lookups return the single record of `recU`. -/
def chInvAll : Chan :=
  Chan.mk (fun _ _ _ _ _ _ => Except.ok [recU])
    (fun _ _ => Except.error (PyErr.herror 1 "Unknown host"))
    (fun _ => Except.error PyErr.invalidIP)
    (fun _ _ => Except.ok (some "n", some "s"))

/-- Helper: on the engine path (bytes host, no AI_NUMERICHOST, not a
local hostname) an empty engine result list becomes
`gaierror(EAI_NONAME)`. -/
theorem getaddrinfo_empty_to_gaierror (env : Env) (ch : Chan) (h : String)
    (port : PortArg) (family socktype proto flags : Nat) (fill : Bool)
    (hLocal : LOCAL_HOSTNAMES.contains h = false)
    (hNum : flags.land AI_NUMERICHOST = 0)
    (hEmpty : ch.getaddrinfo h (port_normalize port) family socktype proto flags
        = Except.ok []) :
    ares_getaddrinfo env ch (HostArg.bytes h) port family socktype proto flags fill
      = (Except.error (PyErr.gaierror EAI_NONAME EAI_NONAME_MSG EAI_NONAME),
         [EngineCall.engGetaddrinfo h (port_normalize port) family socktype proto flags]) := by
  have hmem : h ∉ LOCAL_HOSTNAMES := by simpa using hLocal
  simp [ares_getaddrinfo, host_encode, hmem, hNum, hEmpty]

/-- C2, counterexample: for the address-info lookup of
`b"255.255.255.255"` the code does make an engine call (the bypass set of
`_getaddrinfo` is only `localhost` / `ip6-localhost`), and the result is
not the native resolver's result. -/
theorem c2_broadcast_not_bypassed :
    (ares_getaddrinfo envW chBroadcast (HostArg.bytes "255.255.255.255")
        PortArg.none_ 0 0 0 0 true).2
      = [EngineCall.engGetaddrinfo "255.255.255.255" PortArg.none_ 0 0 0 0]
    ∧ (ares_getaddrinfo envW chBroadcast (HostArg.bytes "255.255.255.255")
        PortArg.none_ 0 0 0 0 true).1
      ≠ envW.natGetaddrinfo (HostArg.bytes "255.255.255.255") PortArg.none_ 0 0 0 0 := by
  decide

/-- C2, amended: for address-info lookups only the hosts of
`LOCAL_HOSTNAMES` (`b"localhost"`, `b"ip6-localhost"`) are bypassed; for
those, `_getaddrinfo` returns exactly the native synchronous resolver's
result with no engine call, and the public `getaddrinfo` loop surfaces
that same result on its first attempt. -/
theorem c2_local_hostnames_bypass (env : Env) (ch : Chan) (h : String)
    (port : PortArg) (family socktype proto flags : Nat) (fill : Bool)
    (rest : List (Chan × Bool))
    (hLocal : LOCAL_HOSTNAMES.contains h = true) :
    ares_getaddrinfo env ch (HostArg.bytes h) port family socktype proto flags fill
      = (env.natGetaddrinfo (HostArg.bytes h) port family socktype proto flags,
         [EngineCall.nativeGetaddrinfo (HostArg.bytes h) port family socktype proto flags])
    ∧ getaddrinfo_run env (HostArg.bytes h) port family socktype proto flags
        ((ch, false) :: rest)
      = some (env.natGetaddrinfo (HostArg.bytes h) port family socktype proto flags,
          [EngineCall.nativeGetaddrinfo (HostArg.bytes h) port family socktype proto flags]) := by
  have hmem : h ∈ LOCAL_HOSTNAMES := by simpa using hLocal
  have hby : ares_getaddrinfo env ch (HostArg.bytes h) port family socktype proto flags fill
      = (env.natGetaddrinfo (HostArg.bytes h) port family socktype proto flags,
         [EngineCall.nativeGetaddrinfo (HostArg.bytes h) port family socktype proto flags]) := by
    simp [ares_getaddrinfo, host_encode, hmem]
  refine ⟨hby, ?_⟩
  have hby' : ares_getaddrinfo env ch (HostArg.bytes h) port family socktype proto flags true
      = (env.natGetaddrinfo (HostArg.bytes h) port family socktype proto flags,
         [EngineCall.nativeGetaddrinfo (HostArg.bytes h) port family socktype proto flags]) := by
    simp [ares_getaddrinfo, host_encode, hmem]
  rw [getaddrinfo_run, hby']
  cases hnat : env.natGetaddrinfo (HostArg.bytes h) port family socktype proto flags with
  | ok v => rfl
  | error e => cases e <;> rfl

/-- C2, witness for the amended theorem at `b"localhost"`. -/
theorem c2_local_hostnames_bypass_witness :
    LOCAL_HOSTNAMES.contains "localhost" = true
    ∧ ares_getaddrinfo envW chBroadcast (HostArg.bytes "localhost")
        PortArg.none_ 0 0 0 0 true
      = (envW.natGetaddrinfo (HostArg.bytes "localhost") PortArg.none_ 0 0 0 0,
         [EngineCall.nativeGetaddrinfo (HostArg.bytes "localhost") PortArg.none_ 0 0 0 0]) :=
  ⟨by decide,
   (c2_local_hostnames_bypass envW chBroadcast "localhost" PortArg.none_
      0 0 0 0 true [] (by decide)).1⟩

/-- C1: for each public resolver operation, when the dispatched attempt
raises that operation's resolver-error kind (`gaierror` for getaddrinfo
and getnameinfo, `herror` for gethostbyaddr and gethostbyname_ex): with
the channel handle identity unchanged the error is surfaced to the caller
(for gethostbyname_ex through its documented host-error translation),
while with a changed handle identity the error is swallowed and the
operation is re-dispatched against the next handle. -/
theorem c1_retry_on_handle_swap
    (envA : Env) (chA : Chan) (hostA : HostArg) (portA : PortArg)
    (famA stA prA flA : Nat) (restA : List (Chan × Bool))
    (cA nA : Int) (mA : String) (trA : Trace)
    (hA : ares_getaddrinfo envA chA hostA portA famA stA prA flA true
        = (Except.error (PyErr.gaierror cA mA nA), trA))
    (envB : Env) (chB : Chan) (ipB : HostArg) (restB : List (Chan × Bool))
    (cB : Int) (mB : String) (trB : Trace)
    (hB : ares_gethostbyaddr envB chB ipB = (Except.error (PyErr.herror cB mB), trB))
    (envC : Env) (chC : Chan) (py3C : Bool) (addrC : String) (portC : Int)
    (saC : GniSockaddr) (flC : Nat) (restC : List (Chan × Bool))
    (cC nC : Int) (mC : String) (trC : Trace)
    (hC : ares_getnameinfo_inner envC chC py3C addrC portC saC flC
        = (Except.error (PyErr.gaierror cC mC nC), trC))
    (chD : Chan) (hostD : String) (famD : Nat) (restD : List (Chan × Bool))
    (cD : Int) (mD : String) (trD : Trace)
    (hD : gethostbyname_ex_attempt chD hostD famD
        = (Except.error (PyErr.herror cD mD), trD)) :
    (getaddrinfo_run envA hostA portA famA stA prA flA ((chA, false) :: restA)
        = some (Except.error (PyErr.gaierror cA mA nA), trA)
      ∧ getaddrinfo_run envA hostA portA famA stA prA flA ((chA, true) :: restA)
        = (getaddrinfo_run envA hostA portA famA stA prA flA restA).map
            (fun pr => (pr.1, trA ++ pr.2)))
    ∧ (gethostbyaddr_run envB ipB ((chB, false) :: restB)
        = some (Except.error (PyErr.herror cB mB), trB)
      ∧ gethostbyaddr_run envB ipB ((chB, true) :: restB)
        = (gethostbyaddr_run envB ipB restB).map (fun pr => (pr.1, trB ++ pr.2)))
    ∧ (getnameinfo_run envC py3C addrC portC saC flC ((chC, false) :: restC)
        = some (Except.error (PyErr.gaierror cC mC nC), trC)
      ∧ getnameinfo_run envC py3C addrC portC saC flC ((chC, true) :: restC)
        = (getnameinfo_run envC py3C addrC portC saC flC restC).map
            (fun pr => (pr.1, trC ++ pr.2)))
    ∧ (gethostbyname_ex_run hostD famD ((chD, false) :: restD)
        = some (Except.error (host_error_translate cD mD), trD)
      ∧ gethostbyname_ex_run hostD famD ((chD, true) :: restD)
        = (gethostbyname_ex_run hostD famD restD).map
            (fun pr => (pr.1, trD ++ pr.2))) := by
  refine ⟨⟨?_, ?_⟩, ⟨?_, ?_⟩, ⟨?_, ?_⟩, ⟨?_, ?_⟩⟩
  · simp [getaddrinfo_run, hA]
  · simp [getaddrinfo_run, hA]
  · simp [gethostbyaddr_run, hB]
  · simp [gethostbyaddr_run, hB]
  · simp [getnameinfo_run, hC]
  · simp [getnameinfo_run, hC]
  · simp [gethostbyname_ex_run, hD]
  · simp [gethostbyname_ex_run, hD]

/-- C1, witness: concrete failing channels, each evaluated on both the
unchanged-handle and the changed-handle branch with an empty remainder. -/
theorem c1_retry_on_handle_swap_witness :
    ares_getaddrinfo envW chFail (HostArg.bytes "example.com") PortArg.none_ 0 0 0 0 true
      = (Except.error (PyErr.gaierror 11 "Temporary failure" 11),
         [EngineCall.engGetaddrinfo "example.com" PortArg.none_ 0 0 0 0])
    ∧ getaddrinfo_run envW (HostArg.bytes "example.com") PortArg.none_ 0 0 0 0
        [(chFail, false)]
      = some (Except.error (PyErr.gaierror 11 "Temporary failure" 11),
          [EngineCall.engGetaddrinfo "example.com" PortArg.none_ 0 0 0 0])
    ∧ gethostbyaddr_run envW (HostArg.bytes "93.184.216.34") [(chFail, false)]
      = some (Except.error (PyErr.herror 1 "Unknown host"),
          [EngineCall.engGethostbyaddr "93.184.216.34"])
    ∧ getnameinfo_run envW true "example.com" 0 saW 0 [(chFail, false)]
      = some (Except.error (PyErr.gaierror 11 "Temporary failure" 11),
          [EngineCall.engGetaddrinfo "example.com" PortArg.none_ AF_UNSPEC SOCK_DGRAM 0 0])
    ∧ gethostbyname_ex_run "example.com" AF_INET [(chFail, true)]
      = (gethostbyname_ex_run "example.com" AF_INET []).map
          (fun pr => (pr.1, [EngineCall.engGethostbyname "example.com" AF_INET] ++ pr.2)) := by
  have h := c1_retry_on_handle_swap
    envW chFail (HostArg.bytes "example.com") PortArg.none_ 0 0 0 0 []
    11 11 "Temporary failure"
    [EngineCall.engGetaddrinfo "example.com" PortArg.none_ 0 0 0 0] (by decide)
    envW chFail (HostArg.bytes "93.184.216.34") []
    1 "Unknown host" [EngineCall.engGethostbyaddr "93.184.216.34"] (by decide)
    envW chFail true "example.com" 0 saW 0 []
    11 11 "Temporary failure"
    [EngineCall.engGetaddrinfo "example.com" PortArg.none_ AF_UNSPEC SOCK_DGRAM 0 0]
    (by decide)
    chFail "example.com" AF_INET []
    1 "Unknown host" [EngineCall.engGethostbyname "example.com" AF_INET] (by decide)
  exact ⟨by decide, h.1.1, h.2.1.1, h.2.2.1.1, h.2.2.2.2⟩

/-- C8: in `gethostbyname_ex` with an unchanged channel handle, an engine
host error with code 1 is re-raised as `gaierror(EAI_NONAME)` with the
name-not-known message, while a host error with any other code is
re-raised unchanged. -/
theorem c8_host_error_translation
    (ch : Chan) (hostname : String) (family : Nat) (rest : List (Chan × Bool))
    (c : Int) (m : String) (tr : Trace)
    (hAtt : gethostbyname_ex_attempt ch hostname family
        = (Except.error (PyErr.herror c m), tr)) :
    (c = 1 → gethostbyname_ex_run hostname family ((ch, false) :: rest)
        = some (Except.error
            (PyErr.gaierror EAI_NONAME EAI_NONAME_MSG EAI_NONAME), tr))
    ∧ (c ≠ 1 → gethostbyname_ex_run hostname family ((ch, false) :: rest)
        = some (Except.error (PyErr.herror c m), tr)) := by
  constructor <;> intro hc <;>
    simp [gethostbyname_ex_run, hAtt, host_error_translate, hc]

/-- C8, witness: the code-1 channel is translated to `gaierror`, the
code-2 channel propagates its `herror` unchanged. -/
theorem c8_host_error_translation_witness :
    gethostbyname_ex_run "example.com" AF_INET [(chFail, false)]
      = some (Except.error (PyErr.gaierror EAI_NONAME EAI_NONAME_MSG EAI_NONAME),
          [EngineCall.engGethostbyname "example.com" AF_INET])
    ∧ gethostbyname_ex_run "example.com" AF_INET [(chHerr2, false)]
      = some (Except.error (PyErr.herror 2 "Host name lookup failure"),
          [EngineCall.engGethostbyname "example.com" AF_INET]) :=
  ⟨(c8_host_error_translation chFail "example.com" AF_INET [] 1 "Unknown host"
      [EngineCall.engGethostbyname "example.com" AF_INET] (by decide)).1 rfl,
   (c8_host_error_translation chHerr2 "example.com" AF_INET [] 2 "Host name lookup failure"
      [EngineCall.engGethostbyname "example.com" AF_INET] (by decide)).2 (by decide)⟩

/-- Helper: a one-to-one backfill list collapses the flatMap to a map. -/
theorem flatMap_single {α β : Type} (f : α → β) (l : List α) :
    l.flatMap (fun x => [f x]) = l.map f := by
  induction l with
  | nil => rfl
  | cons x xs ih => simp [ih]

/-- C3: in the getaddrinfo backfill, a requested socktype (or, failing
that, a requested proto) determines the single (type, proto) pair used to
fill unset fields with no record expansion; when neither is requested,
every record is combined with the two canonical pairs, so a record with
no explicit type/proto becomes exactly the (stream, TCP) and (datagram,
UDP) variants, identical in family, canonical name and socket address. -/
theorem c3_type_proto_backfill (socktype proto : Nat) (result : List AddrInfo) :
    (socktype ≠ 0 → fill_type_proto socktype proto result
      = result.map (fun r => AddrInfo.mk r.family
          (if r.socktype = 0 then socktype else r.socktype)
          (if r.proto = 0 then (if socktype = SOCK_STREAM then SOL_TCP else SOL_UDP)
           else r.proto)
          r.canonname r.sockaddr))
    ∧ (socktype = 0 → proto ≠ 0 → fill_type_proto socktype proto result
      = result.map (fun r => AddrInfo.mk r.family
          (if r.socktype = 0 then (if proto = SOL_TCP then SOCK_STREAM else SOCK_DGRAM)
           else r.socktype)
          (if r.proto = 0 then proto else r.proto)
          r.canonname r.sockaddr))
    ∧ (socktype = 0 → proto = 0 → fill_type_proto socktype proto result
      = result.flatMap (fun r =>
          [AddrInfo.mk r.family (if r.socktype = 0 then SOCK_STREAM else r.socktype)
             (if r.proto = 0 then SOL_TCP else r.proto) r.canonname r.sockaddr,
           AddrInfo.mk r.family (if r.socktype = 0 then SOCK_DGRAM else r.socktype)
             (if r.proto = 0 then SOL_UDP else r.proto) r.canonname r.sockaddr]))
    ∧ (∀ r : AddrInfo, r.socktype = 0 → r.proto = 0 →
        fill_type_proto 0 0 [r]
          = [AddrInfo.mk r.family SOCK_STREAM SOL_TCP r.canonname r.sockaddr,
             AddrInfo.mk r.family SOCK_DGRAM SOL_UDP r.canonname r.sockaddr]) := by
  refine ⟨?_, ?_, ?_, ?_⟩
  · intro hs
    rw [fill_type_proto]
    simp only [hard_type_proto, if_pos hs, List.map_cons, List.map_nil]
    exact flatMap_single _ result
  · intro hs hp
    rw [fill_type_proto]
    simp only [hard_type_proto, hs, if_pos hp]
    simp only [ne_eq, not_true_eq_false, if_false, List.map_cons, List.map_nil]
    exact flatMap_single _ result
  · intro hs hp
    subst hs; subst hp
    rw [fill_type_proto]
    simp [hard_type_proto]
  · intro r hr1 hr2
    simp [fill_type_proto, hard_type_proto, hr1, hr2]

/-- C3, witness: the unset record filled under a requested datagram
socktype, under a requested TCP proto, and expanded when neither is
requested. -/
theorem c3_type_proto_backfill_witness :
    fill_type_proto SOCK_DGRAM 0 [recU]
      = [AddrInfo.mk 2 SOCK_DGRAM SOL_UDP "" (AddrSock.mk "1.2.3.4" 80 [])]
    ∧ fill_type_proto 0 SOL_TCP [recU]
      = [AddrInfo.mk 2 SOCK_STREAM SOL_TCP "" (AddrSock.mk "1.2.3.4" 80 [])]
    ∧ fill_type_proto 0 0 [recU]
      = [AddrInfo.mk 2 SOCK_STREAM SOL_TCP "" (AddrSock.mk "1.2.3.4" 80 []),
         AddrInfo.mk 2 SOCK_DGRAM SOL_UDP "" (AddrSock.mk "1.2.3.4" 80 [])] :=
  ⟨((c3_type_proto_backfill SOCK_DGRAM 0 [recU]).1 (by decide)).trans (by decide),
   ((c3_type_proto_backfill 0 SOL_TCP [recU]).2.1 rfl (by decide)).trans (by decide),
   ((c3_type_proto_backfill 0 0 [recU]).2.2.2 recU rfl rfl).trans (by decide)⟩

/-- Helper: the backfill pair list is never empty. -/
theorem hard_type_proto_ne_nil (s p : Nat) : hard_type_proto s p ≠ [] := by
  rw [hard_type_proto]
  split
  · simp
  · split <;> simp

/-- Helper: the backfill of a nonempty result list is nonempty. -/
theorem fill_type_proto_ne_nil (s p : Nat) (r : AddrInfo) (rs : List AddrInfo) :
    fill_type_proto s p (r :: rs) ≠ [] := by
  intro hnil
  rw [fill_type_proto, List.flatMap_cons] at hnil
  rcases List.append_eq_nil.mp hnil with ⟨h1, -⟩
  exact hard_type_proto_ne_nil s p (List.map_eq_nil_iff.mp h1)

/-- Helper: on the engine path, `_getaddrinfo` never succeeds with an
empty record list. -/
theorem ares_getaddrinfo_ok_ne_nil (env : Env) (ch : Chan) (h : String)
    (port : PortArg) (family socktype proto flags : Nat)
    (l : List AddrInfo) (tr : Trace)
    (hLocal : LOCAL_HOSTNAMES.contains h = false)
    (hNum : flags.land AI_NUMERICHOST = 0)
    (hok : ares_getaddrinfo env ch (HostArg.bytes h) port family socktype proto flags true
        = (Except.ok l, tr)) : l ≠ [] := by
  have hmem : h ∉ LOCAL_HOSTNAMES := by simpa using hLocal
  rw [ares_getaddrinfo] at hok
  simp only [host_encode] at hok
  rcases hres : ch.getaddrinfo h (port_normalize port) family socktype proto flags
      with e | (_ | ⟨r, rs⟩) <;>
    simp [hmem, hNum, hres] at hok
  rcases hok with ⟨hl, -⟩
  intro hcontra
  rw [← hl] at hcontra
  exact fill_type_proto_ne_nil socktype proto r rs hcontra

/-- Helper: on the engine path, the public getaddrinfo loop can never
return an empty record list, whatever the attempts deliver. -/
theorem getaddrinfo_run_ne_ok_nil (env : Env) (h : String) (port : PortArg)
    (family socktype proto flags : Nat)
    (hLocal : LOCAL_HOSTNAMES.contains h = false)
    (hNum : flags.land AI_NUMERICHOST = 0) :
    ∀ (attempts : List (Chan × Bool)) (tr : Trace),
      getaddrinfo_run env (HostArg.bytes h) port family socktype proto flags attempts
        ≠ some (Except.ok [], tr) := by
  intro attempts
  induction attempts with
  | nil => intro tr; simp [getaddrinfo_run]
  | cons a rest ih =>
    intro tr hcontra
    obtain ⟨ch, changed⟩ := a
    rw [getaddrinfo_run] at hcontra
    rcases hres : ares_getaddrinfo env ch (HostArg.bytes h) port family socktype proto flags true
        with ⟨r, tr0⟩
    rw [hres] at hcontra
    rcases r with e | v
    · cases e with
      | gaierror c m n =>
        cases changed
        · simp at hcontra
        · rcases hrest : getaddrinfo_run env (HostArg.bytes h) port family socktype proto flags rest
              with - | pr
          · rw [hrest] at hcontra; simp at hcontra
          · rw [hrest] at hcontra
            simp at hcontra
            exact ih pr.2 (by rw [hrest, ← hcontra.1])
      | herror c m => simp at hcontra
      | oserror m => simp at hcontra
      | typeError m => simp at hcontra
      | overflowError m => simp at hcontra
      | invalidIP => simp at hcontra
      | indexError => simp at hcontra
    · simp only [Option.some.injEq, Prod.mk.injEq, Except.ok.injEq] at hcontra
      exact ares_getaddrinfo_ok_ne_nil env ch h port family socktype proto flags v tr0
        hLocal hNum hres hcontra.1

/-- C4: whenever the engine delivers an empty result list for an
address-info query, `_getaddrinfo` raises `gaierror(EAI_NONAME)` with the
platform name-not-known message; and on the engine path the public
getaddrinfo loop never returns an empty list to the caller. -/
theorem c4_empty_engine_result (env : Env) (ch : Chan) (h : String)
    (port : PortArg) (family socktype proto flags : Nat)
    (hLocal : LOCAL_HOSTNAMES.contains h = false)
    (hNum : flags.land AI_NUMERICHOST = 0)
    (hEmpty : ch.getaddrinfo h (port_normalize port) family socktype proto flags
        = Except.ok []) :
    ares_getaddrinfo env ch (HostArg.bytes h) port family socktype proto flags true
      = (Except.error (PyErr.gaierror EAI_NONAME EAI_NONAME_MSG EAI_NONAME),
         [EngineCall.engGetaddrinfo h (port_normalize port) family socktype proto flags])
    ∧ ∀ (attempts : List (Chan × Bool)) (tr : Trace),
        getaddrinfo_run env (HostArg.bytes h) port family socktype proto flags attempts
          ≠ some (Except.ok [], tr) :=
  ⟨getaddrinfo_empty_to_gaierror env ch h port family socktype proto flags true
      hLocal hNum hEmpty,
   getaddrinfo_run_ne_ok_nil env h port family socktype proto flags hLocal hNum⟩

/-- C4, witness: the empty-returning channel on `example.com`. -/
theorem c4_empty_engine_result_witness :
    chEmptyAddr.getaddrinfo "example.com" PortArg.none_ 0 0 0 0 = Except.ok []
    ∧ ares_getaddrinfo envW chEmptyAddr (HostArg.bytes "example.com")
        PortArg.none_ 0 0 0 0 true
      = (Except.error (PyErr.gaierror EAI_NONAME EAI_NONAME_MSG EAI_NONAME),
         [EngineCall.engGetaddrinfo "example.com" PortArg.none_ 0 0 0 0])
    ∧ getaddrinfo_run envW (HostArg.bytes "example.com") PortArg.none_ 0 0 0 0
        [(chEmptyAddr, false)] ≠ some (Except.ok [], []) := by
  have h := c4_empty_engine_result envW chEmptyAddr "example.com" PortArg.none_ 0 0 0 0
    (by decide) (by decide) (by decide)
  exact ⟨by decide, h.1, h.2 [(chEmptyAddr, false)] []⟩

/-- C5, counterexample: when the auxiliary address-info lookup of a
name-info query gets zero candidates from the engine, the error raised is
the name-not-known `gaierror` coming from `_getaddrinfo`, not the
ambiguous-result OS error the claim states. -/
theorem c5_zero_candidates_counterexample :
    getnameinfo envW true saW 0 [(chEmptyAddr, false)]
      = some (Except.error (PyErr.gaierror EAI_NONAME EAI_NONAME_MSG EAI_NONAME),
          [EngineCall.engGetaddrinfo "93.184.216.34" PortArg.none_
             AF_UNSPEC SOCK_DGRAM 0 0])
    ∧ PyErr.gaierror EAI_NONAME EAI_NONAME_MSG EAI_NONAME
      ≠ PyErr.oserror "sockaddr resolved to multiple addresses" := by
  decide

/-- C5, amended: when the auxiliary address-info lookup returns a list
whose length is not 1 (more than one candidate, or an empty list obtained
through the native bypass), `_getnameinfo` raises the ambiguous-result
error; when the engine itself delivers zero candidates, the name-not-known
`gaierror` of the auxiliary lookup propagates instead.  In neither case is
a (node, service) tuple returned. -/
theorem c5_candidate_count_amended
    (env : Env) (ch : Chan) (py3 : Bool) (hostname : String) (port : Int)
    (sockaddr : GniSockaddr) (flags : Nat) (l : List AddrInfo) (tr : Trace)
    (hAux : ares_getaddrinfo env ch (HostArg.bytes hostname) (PortArg.int port)
        AF_UNSPEC SOCK_DGRAM 0 0 false = (Except.ok l, tr))
    (hLen : l.length ≠ 1)
    (env2 : Env) (ch2 : Chan) (py32 : Bool) (hostname2 : String) (port2 : Int)
    (sockaddr2 : GniSockaddr) (flags2 : Nat)
    (hLocal2 : LOCAL_HOSTNAMES.contains hostname2 = false)
    (hEmpty2 : ch2.getaddrinfo hostname2 (port_normalize (PortArg.int port2))
        AF_UNSPEC SOCK_DGRAM 0 0 = Except.ok []) :
    ares_getnameinfo_inner env ch py3 hostname port sockaddr flags
      = (Except.error (PyErr.oserror "sockaddr resolved to multiple addresses"), tr)
    ∧ ares_getnameinfo_inner env2 ch2 py32 hostname2 port2 sockaddr2 flags2
      = (Except.error (PyErr.gaierror EAI_NONAME EAI_NONAME_MSG EAI_NONAME),
         [EngineCall.engGetaddrinfo hostname2 (port_normalize (PortArg.int port2))
            AF_UNSPEC SOCK_DGRAM 0 0]) := by
  constructor
  · rw [ares_getnameinfo_inner, hAux]
    rcases l with - | ⟨r0, - | ⟨r1, rl⟩⟩
    · rfl
    · simp at hLen
    · rfl
  · rw [ares_getnameinfo_inner,
      getaddrinfo_empty_to_gaierror env2 ch2 hostname2 (PortArg.int port2)
        AF_UNSPEC SOCK_DGRAM 0 0 false hLocal2 (by decide) hEmpty2]

/-- C5, witness: the two-record channel triggers the ambiguous error, the
empty-returning channel triggers the name-not-known error. -/
theorem c5_candidate_count_amended_witness :
    ares_getnameinfo_inner envW chTwo true "93.184.216.34" 0 saW 0
      = (Except.error (PyErr.oserror "sockaddr resolved to multiple addresses"),
         [EngineCall.engGetaddrinfo "93.184.216.34" PortArg.none_
            AF_UNSPEC SOCK_DGRAM 0 0])
    ∧ ares_getnameinfo_inner envW chEmptyAddr true "93.184.216.34" 0 saW 0
      = (Except.error (PyErr.gaierror EAI_NONAME EAI_NONAME_MSG EAI_NONAME),
         [EngineCall.engGetaddrinfo "93.184.216.34" PortArg.none_
            AF_UNSPEC SOCK_DGRAM 0 0]) :=
  c5_candidate_count_amended envW chTwo true "93.184.216.34" 0 saW 0
    [recU, recU2]
    [EngineCall.engGetaddrinfo "93.184.216.34" PortArg.none_ AF_UNSPEC SOCK_DGRAM 0 0]
    (by decide) (by decide)
    envW chEmptyAddr true "93.184.216.34" 0 saW 0 (by decide) (by decide)

/-- C6: when the name-info completion delivers no service value, the
Python-3 convention raises `gaierror(EAI_NONAME)` with the name-not-known
message and the errno attribute set to `EAI_NONAME`, while the historical
convention returns the node together with the literal service string
"0". -/
theorem c6_missing_service
    (env : Env) (ch : Chan) (hostname : String) (port : Int)
    (sockaddr : GniSockaddr) (flags : Nat) (r0 : AddrInfo) (tr : Trace)
    (node : Option String) (addr : AddrSock)
    (hAux : ares_getaddrinfo env ch (HostArg.bytes hostname) (PortArg.int port)
        AF_UNSPEC SOCK_DGRAM 0 0 false = (Except.ok [r0], tr))
    (hFam : r0.family = AF_INET → sockaddr.extra = [])
    (hAddr : addr = (if r0.family = AF_INET6
        then AddrSock.mk r0.sockaddr.host r0.sockaddr.port sockaddr.extra
        else r0.sockaddr))
    (hSvc : ch.getnameinfo addr flags = Except.ok (node, none)) :
    ares_getnameinfo_inner env ch true hostname port sockaddr flags
      = (Except.error (PyErr.gaierror EAI_NONAME EAI_NONAME_MSG EAI_NONAME),
         tr ++ [EngineCall.engGetnameinfo addr flags])
    ∧ ares_getnameinfo_inner env ch false hostname port sockaddr flags
      = (Except.ok (node, "0"), tr ++ [EngineCall.engGetnameinfo addr flags]) := by
  have hcond : ¬(r0.family = AF_INET ∧ sockaddr.extra ≠ []) :=
    fun hq => hq.2 (hFam hq.1)
  constructor <;>
    simp only [ares_getnameinfo_inner, hAux, if_neg hcond, ← hAddr, hSvc] <;> simp

/-- C6, witness: the single-record channel whose completion has no
service, evaluated under both conventions. -/
theorem c6_missing_service_witness :
    ares_getnameinfo_inner envW chOne true "93.184.216.34" 0 saW 0
      = (Except.error (PyErr.gaierror EAI_NONAME EAI_NONAME_MSG EAI_NONAME),
         [EngineCall.engGetaddrinfo "93.184.216.34" PortArg.none_
            AF_UNSPEC SOCK_DGRAM 0 0,
          EngineCall.engGetnameinfo (AddrSock.mk "1.2.3.4" 80 []) 0])
    ∧ ares_getnameinfo_inner envW chOne false "93.184.216.34" 0 saW 0
      = (Except.ok (some "host.example", "0"),
         [EngineCall.engGetaddrinfo "93.184.216.34" PortArg.none_
            AF_UNSPEC SOCK_DGRAM 0 0,
          EngineCall.engGetnameinfo (AddrSock.mk "1.2.3.4" 80 []) 0]) :=
  c6_missing_service envW chOne "93.184.216.34" 0 saW 0 recU
    [EngineCall.engGetaddrinfo "93.184.216.34" PortArg.none_ AF_UNSPEC SOCK_DGRAM 0 0]
    (some "host.example") (AddrSock.mk "1.2.3.4" 80 [])
    (by decide) (fun _ => rfl) (by decide) (by decide)

/-- C7, counterexample: an address-info lookup given integer port 70000
dispatches the engine call with the stringified port bytes "70000" and
not with the clamped service-unspecified value. -/
theorem c7_large_port_counterexample :
    (ares_getaddrinfo envW chOne (HostArg.bytes "example.com") (PortArg.int 70000)
        0 0 0 0 true).2
      = [EngineCall.engGetaddrinfo "example.com" (PortArg.bytes "70000") 0 0 0 0]
    ∧ PortArg.bytes "70000" ≠ PortArg.none_
    ∧ PortArg.bytes "70000" ≠ PortArg.int 0 := by
  decide

/-- Helper: `_getnameinfo` reads only the trailing elements of the
caller's sockaddr, never its host or port fields. -/
theorem inner_ignores_sockaddr_port (env : Env) (ch : Chan) (py3 : Bool)
    (hostname : String) (port : Int) (host : HostArg) (p1 p2 : Int)
    (extra : List Int) (flags : Nat) :
    ares_getnameinfo_inner env ch py3 hostname port
        (GniSockaddr.mk host p1 extra) flags
      = ares_getnameinfo_inner env ch py3 hostname port
        (GniSockaddr.mk host p2 extra) flags := rfl

/-- Helper: the getnameinfo retry loop likewise ignores the sockaddr's
own port field. -/
theorem run_ignores_sockaddr_port (env : Env) (py3 : Bool) (address : String)
    (port : Int) (host : HostArg) (p1 p2 : Int) (extra : List Int) (flags : Nat) :
    ∀ attempts : List (Chan × Bool),
      getnameinfo_run env py3 address port (GniSockaddr.mk host p1 extra) flags attempts
        = getnameinfo_run env py3 address port (GniSockaddr.mk host p2 extra) flags attempts := by
  intro attempts
  induction attempts with
  | nil => rfl
  | cons a rest ih =>
    obtain ⟨ch, changed⟩ := a
    rw [getnameinfo_run, getnameinfo_run,
      inner_ignores_sockaddr_port env ch py3 address port host p1 p2 extra flags, ih]

/-- C7, amended: the clamp of out-of-range ports to the
service-unspecified value happens only in the name-info operation:
`getnameinfo` given any port at least 65536 behaves exactly as if the
port were 0, raising no port error; address-info lookups instead pass the
stringified port through to the engine unchanged. -/
theorem c7_nameinfo_port_clamp (env : Env) (py3 : Bool) (host : HostArg)
    (p : Int) (extra : List Int) (flags : Nat) (attempts : List (Chan × Bool))
    (hp : p ≥ 65536) :
    getnameinfo env py3 (GniSockaddr.mk host p extra) flags attempts
      = getnameinfo env py3 (GniSockaddr.mk host 0 extra) flags attempts := by
  simp only [getnameinfo]
  rcases hhb : hostname_to_bytes env host with e | address
  · rfl
  · simp only [if_pos hp]
    have h0 : ((if (0:Int) ≥ 65536 then (0:Int) else 0) : Int) = 0 := by norm_num
    rw [h0]
    rcases extra with - | ⟨f, fs⟩
    · exact run_ignores_sockaddr_port env py3 address 0 host p 0 [] flags attempts
    · by_cases hf : f > 0xfffff
      · simp [hf]
      · simp only [hf, if_false, if_neg hf]
        exact run_ignores_sockaddr_port env py3 address 0 host p 0 (f :: fs) flags attempts

/-- C7, witness: port 70000 to getnameinfo behaves as port 0. -/
theorem c7_nameinfo_port_clamp_witness :
    (70000 : Int) ≥ 65536
    ∧ getnameinfo envW true (GniSockaddr.mk (HostArg.bytes "93.184.216.34") 70000 []) 0
        [(chOne, false)]
      = getnameinfo envW true (GniSockaddr.mk (HostArg.bytes "93.184.216.34") 0 []) 0
        [(chOne, false)] :=
  ⟨by norm_num,
   c7_nameinfo_port_clamp envW true (HostArg.bytes "93.184.216.34") 70000 [] 0
     [(chOne, false)] (by norm_num)⟩

/-- C9, counterexample: `gethostbyname` called without an explicit family
dispatches the lookup with `AF_INET`, not with the unspecified family:
on a channel whose answers differ per family, the one-argument call
returns the AF_INET answer, and `AF_INET` is not `AF_UNSPEC`. -/
theorem c9_default_family_counterexample :
    gethostbyname envW (HostArg.bytes "x.example") [(chFam, false)]
      = some (Except.ok "1.1.1.1", [EngineCall.engGethostbyname "x.example" AF_INET])
    ∧ gethostbyname envW (HostArg.bytes "x.example") [(chFam, false)]
      ≠ some (Except.ok "2.2.2.2", [EngineCall.engGethostbyname "x.example" AF_UNSPEC])
    ∧ AF_INET ≠ AF_UNSPEC := by
  decide

/-- C9, amended: `gethostbyname` without an explicit family argument
performs the lookup with the `AF_INET` default (it is identical to the
explicit AF_INET call), and returns the first element of the underlying
full lookup's address list. -/
theorem c9_gethostbyname_first_address
    (env : Env) (host : HostArg) (attempts : List (Chan × Bool))
    (entry : HostEntry) (tr : Trace) (a : String) (tl : List String)
    (hEx : gethostbyname_ex env (env.resolveSpecial host AF_INET) AF_INET attempts
        = some (Except.ok entry, tr))
    (hAddrs : entry.addrs = a :: tl) :
    gethostbyname env host attempts = some (Except.ok a, tr)
    ∧ gethostbyname env host attempts
      = gethostbyname_with_family env host AF_INET attempts := by
  refine ⟨?_, rfl⟩
  have hstep : gethostbyname_with_family env host AF_INET attempts
      = match entry.addrs with
        | [] => some (Except.error PyErr.indexError, tr)
        | a :: _ => some (Except.ok a, tr) := by
    rw [gethostbyname_with_family, hEx]
  rw [gethostbyname, hstep, hAddrs]

/-- C9, witness for the amended theorem on the family-sensitive
channel. -/
theorem c9_gethostbyname_first_address_witness :
    gethostbyname_ex envW (envW.resolveSpecial (HostArg.bytes "x.example") AF_INET)
        AF_INET [(chFam, false)]
      = some (Except.ok (HostEntry.mk "x.example" [] ["1.1.1.1"]),
          [EngineCall.engGethostbyname "x.example" AF_INET])
    ∧ gethostbyname envW (HostArg.bytes "x.example") [(chFam, false)]
      = some (Except.ok "1.1.1.1", [EngineCall.engGethostbyname "x.example" AF_INET]) :=
  ⟨by decide,
   (c9_gethostbyname_first_address envW (HostArg.bytes "x.example") [(chFam, false)]
      (HostEntry.mk "x.example" [] ["1.1.1.1"])
      [EngineCall.engGethostbyname "x.example" AF_INET] "1.1.1.1" []
      (by decide) rfl).1⟩

/-- Helper: the reverse-call counter distributes over appended traces. -/
theorem countRev_append (t1 t2 : Trace) :
    countRev (t1 ++ t2) = countRev t1 + countRev t2 := by
  induction t1 with
  | nil => simp [countRev]
  | cons c cs ih =>
    cases c <;> simp [countRev, ih, Nat.add_right_comm]

/-- Helper: the forward-call counter distributes over appended traces. -/
theorem countFwd_append (t1 t2 : Trace) :
    countFwd (t1 ++ t2) = countFwd t1 + countFwd t2 := by
  induction t1 with
  | nil => simp [countFwd]
  | cons c cs ih =>
    cases c <;> simp [countFwd, ih, Nat.add_right_comm]

/-- Helper: `_getaddrinfo` makes exactly one forward call and no reverse
call, whatever path it takes. -/
theorem ares_getaddrinfo_trace (env : Env) (ch : Chan) (host : HostArg)
    (port : PortArg) (family socktype proto flags : Nat) (fill : Bool) :
    countRev (ares_getaddrinfo env ch host port family socktype proto flags fill).2 = 0
    ∧ countFwd (ares_getaddrinfo env ch host port family socktype proto flags fill).2 = 1 := by
  rw [ares_getaddrinfo]
  split
  · split
    · simp [countRev, countFwd]
    · split <;> simp [countRev, countFwd]
  all_goals simp [countRev, countFwd]

/-- C10: when the engine rejects a reverse lookup input as an invalid IP,
exactly one forward address-info lookup is attempted on the input; an
empty forward result, or a first resolved address equal to the original
input bytes, re-raises the original invalid-IP error with no second
reverse query; otherwise exactly one second reverse query is issued for
the newly resolved address. -/
theorem c10_invalid_ip_fallback (env : Env) (ch : Chan) (ipb : String)
    (hInv : ch.gethostbyaddr ipb = Except.error PyErr.invalidIP) :
    (∀ tr : Trace,
      ares_getaddrinfo env ch (HostArg.bytes ipb) PortArg.none_
          AF_UNSPEC SOCK_DGRAM 0 0 true = (Except.ok [], tr) →
        ares_gethostbyaddr env ch (HostArg.bytes ipb)
          = (Except.error PyErr.invalidIP, EngineCall.engGethostbyaddr ipb :: tr)
        ∧ countRev (EngineCall.engGethostbyaddr ipb :: tr) = 1
        ∧ countFwd (EngineCall.engGethostbyaddr ipb :: tr) = 1)
    ∧ (∀ (r0 : AddrInfo) (rl : List AddrInfo) (tr : Trace),
      ares_getaddrinfo env ch (HostArg.bytes ipb) PortArg.none_
          AF_UNSPEC SOCK_DGRAM 0 0 true = (Except.ok (r0 :: rl), tr) →
      r0.sockaddr.host = ipb →
        ares_gethostbyaddr env ch (HostArg.bytes ipb)
          = (Except.error PyErr.invalidIP, EngineCall.engGethostbyaddr ipb :: tr)
        ∧ countRev (EngineCall.engGethostbyaddr ipb :: tr) = 1
        ∧ countFwd (EngineCall.engGethostbyaddr ipb :: tr) = 1)
    ∧ (∀ (r0 : AddrInfo) (rl : List AddrInfo) (tr : Trace),
      ares_getaddrinfo env ch (HostArg.bytes ipb) PortArg.none_
          AF_UNSPEC SOCK_DGRAM 0 0 true = (Except.ok (r0 :: rl), tr) →
      r0.sockaddr.host ≠ ipb →
        ares_gethostbyaddr env ch (HostArg.bytes ipb)
          = (ch.gethostbyaddr r0.sockaddr.host,
             EngineCall.engGethostbyaddr ipb ::
               (tr ++ [EngineCall.engGethostbyaddr r0.sockaddr.host]))
        ∧ countRev (EngineCall.engGethostbyaddr ipb ::
            (tr ++ [EngineCall.engGethostbyaddr r0.sockaddr.host])) = 2
        ∧ countFwd (EngineCall.engGethostbyaddr ipb ::
            (tr ++ [EngineCall.engGethostbyaddr r0.sockaddr.host])) = 1) := by
  have hrev0 : ∀ tr : Trace,
      ares_getaddrinfo env ch (HostArg.bytes ipb) PortArg.none_
          AF_UNSPEC SOCK_DGRAM 0 0 true = (Except.ok [], tr) ∨
      (∃ r0 rl, ares_getaddrinfo env ch (HostArg.bytes ipb) PortArg.none_
          AF_UNSPEC SOCK_DGRAM 0 0 true = (Except.ok (r0 :: rl), tr)) →
      countRev tr = 0 ∧ countFwd tr = 1 := by
    intro tr hc
    have h := ares_getaddrinfo_trace env ch (HostArg.bytes ipb) PortArg.none_
      AF_UNSPEC SOCK_DGRAM 0 0 true
    rcases hc with heq | ⟨r0, rl, heq⟩ <;> rw [heq] at h <;> exact h
  refine ⟨?_, ?_, ?_⟩
  · intro tr hAux
    have hcnt := hrev0 tr (Or.inl hAux)
    refine ⟨?_, ?_, ?_⟩
    · simp [ares_gethostbyaddr, hostname_to_bytes, hInv, hAux]
    · simp [countRev, hcnt.1]
    · simp [countFwd, hcnt.2]
  · intro r0 rl tr hAux hEq
    have hcnt := hrev0 tr (Or.inr ⟨r0, rl, hAux⟩)
    refine ⟨?_, ?_, ?_⟩
    · simp [ares_gethostbyaddr, hostname_to_bytes, hInv, hAux, hEq]
    · simp [countRev, hcnt.1]
    · simp [countFwd, hcnt.2]
  · intro r0 rl tr hAux hEq
    have hcnt := hrev0 tr (Or.inr ⟨r0, rl, hAux⟩)
    refine ⟨?_, ?_, ?_⟩
    · simp [ares_gethostbyaddr, hostname_to_bytes, hInv, hAux, hEq]
    · simp [countRev, countRev_append, hcnt.1]
    · simp [countFwd, countFwd_append, hcnt.2]

/-- C10, witness: the invalid-IP channel on the three scenarios: a
bypass-empty forward result, a forward result resolving back to the
input, and a forward result resolving to a new address. -/
theorem c10_invalid_ip_fallback_witness :
    ares_gethostbyaddr envW chInvAll (HostArg.bytes "localhost")
      = (Except.error PyErr.invalidIP,
         [EngineCall.engGethostbyaddr "localhost",
          EngineCall.nativeGetaddrinfo (HostArg.bytes "localhost") PortArg.none_
            AF_UNSPEC SOCK_DGRAM 0 0])
    ∧ ares_gethostbyaddr envW chInvAll (HostArg.bytes "1.2.3.4")
      = (Except.error PyErr.invalidIP,
         [EngineCall.engGethostbyaddr "1.2.3.4",
          EngineCall.engGetaddrinfo "1.2.3.4" PortArg.none_ AF_UNSPEC SOCK_DGRAM 0 0])
    ∧ ares_gethostbyaddr envW chInvAll (HostArg.bytes "93.184.216.34")
      = (Except.error PyErr.invalidIP,
         [EngineCall.engGethostbyaddr "93.184.216.34",
          EngineCall.engGetaddrinfo "93.184.216.34" PortArg.none_ AF_UNSPEC SOCK_DGRAM 0 0,
          EngineCall.engGethostbyaddr "1.2.3.4"])
    ∧ countRev
        [EngineCall.engGethostbyaddr "93.184.216.34",
         EngineCall.engGetaddrinfo "93.184.216.34" PortArg.none_ AF_UNSPEC SOCK_DGRAM 0 0,
         EngineCall.engGethostbyaddr "1.2.3.4"] = 2 := by
  have h1 := (c10_invalid_ip_fallback envW chInvAll "localhost" (by decide)).1
    [EngineCall.nativeGetaddrinfo (HostArg.bytes "localhost") PortArg.none_
       AF_UNSPEC SOCK_DGRAM 0 0] (by decide)
  have h2 := (c10_invalid_ip_fallback envW chInvAll "1.2.3.4" (by decide)).2.1
    (AddrInfo.mk 2 2 17 "" (AddrSock.mk "1.2.3.4" 80 [])) []
    [EngineCall.engGetaddrinfo "1.2.3.4" PortArg.none_ AF_UNSPEC SOCK_DGRAM 0 0]
    (by decide) rfl
  have h3 := (c10_invalid_ip_fallback envW chInvAll "93.184.216.34" (by decide)).2.2
    (AddrInfo.mk 2 2 17 "" (AddrSock.mk "1.2.3.4" 80 [])) []
    [EngineCall.engGetaddrinfo "93.184.216.34" PortArg.none_ AF_UNSPEC SOCK_DGRAM 0 0]
    (by decide) (by decide)
  exact ⟨h1.1, h2.1, h3.1, h3.2.1⟩

end GeventAres
